import Mathlib

set_option autoImplicit false

/-!
Shallow embedding of the caching identifier-resolution layer of the
steam-api-client repository: the generic TTL cache (src/cache.rs) and the
caching vanity URL resolver (src/steam_client/resolver.rs).

Modelling conventions:
- Instants and durations are natural numbers (Rust std Instant / Duration,
  measured in seconds); the current instant is passed explicitly to the
  operations that call Instant::now in the source.
- The HashMap inside the cache is an association list with at most one
  entry per key (insert replaces in place, as HashMap::insert does).
- JSON bodies (serde_json Value) are a small inductive Json type; the
  serde untagged deserialization of the response enums is translated field
  by field.
- The reqwest Client plus the two remote endpoints used by the resolver
  are a function from the requested endpoint to a transport outcome; URL
  construction from the api key (endpoint.rs) is absorbed into that
  transport function, since the resolver only threads the key through.
- resolve and find also return the list of lock and I/O events they
  perform, in program order, to state call-count and lock-discipline
  properties.
-/

/-- Model of a serde_json Value. Numbers are integers, which covers every
value the resolver code reads from a number. -/
inductive Json where
  | null
  | bool (b : Bool)
  | num (n : Int)
  | str (s : String)
  | arr (elems : List Json)
  | obj (fields : List (String × Json))

/-- Field lookup in a JSON object field list: first binding wins. -/
def lookupField : List (String × Json) → String → Json
  | [], _ => .null
  | (k, v) :: rest, key => if k = key then v else lookupField rest key

/-- Translation of serde_json Value indexing by a string key, as used in
res[\x22response\x22]: returns the field when the value is an object that has
it, and Null otherwise. -/
def Json.index : Json → String → Json
  | .obj fields, key => lookupField fields key
  | _, _ => .null

/-- String extraction used when serde deserializes a String field. -/
def asString : Json → Option String
  | .str s => some s
  | _ => none

/-- Bounds check for an i32 field value. -/
def fitsI32 (n : Int) : Bool := -(2 ^ 31) ≤ n && n ≤ 2 ^ 31 - 1

/-- Integer extraction used when serde deserializes an i32 field: the JSON
value must be an integer number within i32 range. -/
def asI32 : Json → Option Int
  | .num n => if fitsI32 n then some n else none
  | _ => none

/-- Translation of the untagged enum GetVanityUrlResponse declared inside
CachingVanityUrlResolver::find in resolver.rs. -/
inductive GetVanityUrlResponse where
  | Ok (steamid : String) (success : Int)
  | NotFound (message : String) (success : Int)
deriving DecidableEq

/-- Translation of serde untagged deserialization for GetVanityUrlResponse:
the variants are tried in declaration order, a variant matches when the
value is an object whose declared fields are present with the declared
types (unknown fields are ignored, a missing field and a field of the
wrong type both make the variant fail), and when no variant matches the
result is a deserialization error. -/
def deserializeGetVanityUrlResponse (j : Json) : Except Unit GetVanityUrlResponse :=
  match j with
  | .obj fields =>
    match asString (lookupField fields "steamid"), asI32 (lookupField fields "success") with
    | some s, some n => .ok (.Ok s n)
    | _, _ =>
      match asString (lookupField fields "message"), asI32 (lookupField fields "success") with
      | some m, some n => .ok (.NotFound m n)
      | _, _ => .error ()
  | _ => .error ()

/-- Translation of the Player entity (src/entity/player.rs). -/
structure Player where
  steamid : String
  profileurl : String
  personaname : String
  avatarfull : String
deriving DecidableEq

/-- Serde deserialization of one Player record: an object with the four
string fields. -/
def parsePlayer (j : Json) : Except Unit Player :=
  match j with
  | .obj fields =>
    match asString (lookupField fields "steamid"), asString (lookupField fields "profileurl"),
          asString (lookupField fields "personaname"), asString (lookupField fields "avatarfull") with
    | some a, some b, some c, some d => .ok ⟨a, b, c, d⟩
    | _, _, _, _ => .error ()
  | _ => .error ()

/-- Serde deserialization of a Vec of Player records: the value must be an
array and every element must deserialize. -/
def parsePlayers (j : Json) : Except Unit (List Player) :=
  match j with
  | .arr elems => elems.mapM parsePlayer
  | _ => .error ()

/-- Translation of SasError (src/error.rs). The source payloads of the
ReqwestError and SerdeError variants wrap foreign error values and carry
no information the resolver inspects, so they are dropped here. -/
inductive SasError where
  | ReqwestError
  | SteamApiError (msg : String) (status : Nat)
  | SerdeError
  | ApiError (msg : String)
  | InternalError (msg : String)
deriving DecidableEq

/-- Translation of CacheItem (src/cache.rs). -/
structure CacheItem (V : Type) where
  expiration : Nat
  value : V
deriving DecidableEq

/-- Translation of Cache (src/cache.rs): an association-list rendering of
the HashMap together with the ttl duration. -/
structure Cache (K V : Type) where
  inner : List (K × CacheItem V)
  ttl : Nat
deriving DecidableEq

/-- Association-list rendering of HashMap::get. -/
def lookupItem {K V : Type} [DecidableEq K] : List (K × CacheItem V) → K → Option (CacheItem V)
  | [], _ => none
  | (k, it) :: rest, key => if k = key then some it else lookupItem rest key

/-- Association-list rendering of HashMap::insert: replaces the entry of an
existing key in place, otherwise appends a fresh entry. -/
def insertItem {K V : Type} [DecidableEq K] :
    List (K × CacheItem V) → K → CacheItem V → List (K × CacheItem V)
  | [], key, it => [(key, it)]
  | (k, v) :: rest, key, it =>
    if k = key then (key, it) :: rest else (k, v) :: insertItem rest key it

/-- Translation of Cache::new: empty map, ttl of 15 minutes (900 seconds). -/
def Cache.new (K V : Type) : Cache K V := { inner := [], ttl := 15 * 60 }

/-- Translation of Cache::get with the Instant::now value passed explicitly.
The Rust method takes mutable access but writes nothing in any branch, so
the state-passing translation returns the cache next to the result. -/
def Cache.getS {K V : Type} [DecidableEq K] (c : Cache K V) (now : Nat) (key : K) :
    Option V × Cache K V :=
  match lookupItem c.inner key with
  | some cacheItem => if now < cacheItem.expiration then (some cacheItem.value, c) else (none, c)
  | none => (none, c)

/-- Result component of Cache::get. -/
def Cache.get {K V : Type} [DecidableEq K] (c : Cache K V) (now : Nat) (key : K) : Option V :=
  (c.getS now key).1

/-- Translation of Cache::set with the Instant::now value passed explicitly:
inserts the value with expiration now + ttl. -/
def Cache.set {K V : Type} [DecidableEq K] (c : Cache K V) (now : Nat) (key : K) (value : V) :
    Cache K V :=
  { c with inner := insertItem c.inner key { expiration := now + c.ttl, value := value } }

/-- The two SteamEndpoint variants (src/steam_client/endpoint.rs) the
resolver requests; the source enum has further variants the resolver
never constructs. -/
inductive SteamEndpoint where
  | ResolveVanityUrl (url : String)
  | GetPlayerSummaries (steamId : String)
deriving DecidableEq

/-- Outcome of one HTTP GET: either the send fails (a reqwest transport
error), or a response arrives with a status code and a body; a body of
none stands for a body on which Response::json fails, which reqwest also
reports as its own error type. -/
inductive HttpResult where
  | sendError
  | response (status : Nat) (body : Option Json)

/-- The transport model: what each requested endpoint answers. -/
def Client : Type := SteamEndpoint → HttpResult

/-- Translation of StatusCode::is_success: 2xx. -/
def isSuccess (status : Nat) : Bool := 200 ≤ status && status ≤ 299

/-- The ApiError message format of find. The source formats the whole
StatusCode (number and canonical reason); only the number is modelled, and
no property below depends on this string. -/
def apiErrorMsg (status : Nat) : String :=
  "Recieved " ++ toString status ++ " from Steam API"

/-- Lock and I/O events of one resolve execution, in program order. -/
inductive Event where
  | lockAcquire
  | lockRelease
  | cacheRead
  | cacheWrite
  | networkCall (endpointCalled : SteamEndpoint)
deriving DecidableEq

/-- Translation of CachingVanityUrlResolver (resolver.rs): the RwLock-shared
cache and the api key. -/
structure CachingVanityUrlResolver where
  cache : Cache String (Option String)
  api_key : String
deriving DecidableEq

/-- The not-found error resolve builds at its start. -/
def notFoundError : SasError :=
  .SteamApiError "Player with given ID does not exist" 404

/-- Translation of CachingVanityUrlResolver::find: query the vanity
resolution endpoint; on a success status, parse the response field as the
untagged GetVanityUrlResponse; on the Ok shape return the steamid; on the
NotFound shape query the player summaries endpoint with the same id and
return the first player entry when there is one. Transport failures,
non-success statuses and parse failures become the corresponding SasError.
The second component lists the network calls made, in order. -/
def CachingVanityUrlResolver.find (client : Client) (id : String) :
    Except SasError (Option String) × List Event :=
  match client (.ResolveVanityUrl id) with
  | .sendError => (.error .ReqwestError, [.networkCall (.ResolveVanityUrl id)])
  | .response status body =>
    if isSuccess status then
      match body with
      | none => (.error .ReqwestError, [.networkCall (.ResolveVanityUrl id)])
      | some res =>
        match deserializeGetVanityUrlResponse (res.index "response") with
        | .error _ => (.error .SerdeError, [.networkCall (.ResolveVanityUrl id)])
        | .ok (.Ok steamid _) => (.ok (some steamid), [.networkCall (.ResolveVanityUrl id)])
        | .ok (.NotFound _ _) =>
          match client (.GetPlayerSummaries id) with
          | .sendError =>
            (.error .ReqwestError,
             [.networkCall (.ResolveVanityUrl id), .networkCall (.GetPlayerSummaries id)])
          | .response status2 body2 =>
            if isSuccess status2 then
              match body2 with
              | none =>
                (.error .ReqwestError,
                 [.networkCall (.ResolveVanityUrl id), .networkCall (.GetPlayerSummaries id)])
              | some res2 =>
                match parsePlayers ((res2.index "response").index "players") with
                | .error _ =>
                  (.error .SerdeError,
                   [.networkCall (.ResolveVanityUrl id), .networkCall (.GetPlayerSummaries id)])
                | .ok players =>
                  match players.head? with
                  | some p =>
                    (.ok (some p.steamid),
                     [.networkCall (.ResolveVanityUrl id), .networkCall (.GetPlayerSummaries id)])
                  | none =>
                    (.ok none,
                     [.networkCall (.ResolveVanityUrl id), .networkCall (.GetPlayerSummaries id)])
            else
              (.error (.ApiError (apiErrorMsg status2)),
               [.networkCall (.ResolveVanityUrl id), .networkCall (.GetPlayerSummaries id)])
    else
      (.error (.ApiError (apiErrorMsg status)), [.networkCall (.ResolveVanityUrl id)])

deriving instance DecidableEq for Except

/-- Translation of Option::ok_or with the fixed not-found error built at
the start of resolve. -/
def outcomeToResult (o : Option String) : Except SasError String :=
  match o with
  | some s => .ok s
  | none => .error notFoundError

/-- Result of one resolve execution: the returned value, the resolver state
afterwards, and the trace of lock and I/O events. -/
structure ResolveResult where
  result : Except SasError String
  state : CachingVanityUrlResolver
  trace : List Event
deriving DecidableEq

/-- Translation of CachingVanityUrlResolver::resolve. tRead is the
Instant::now of the cache read, tWrite the Instant::now of the cache write
on the miss path. The first scoped block takes the cache lock, reads, and
releases; a hit returns the cached outcome through ok_or; on a miss, find
runs without the lock, an error from it propagates before any write, and
otherwise the second scoped block takes the lock again and stores the
outcome, which is then returned through ok_or. -/
def CachingVanityUrlResolver.resolve (r : CachingVanityUrlResolver) (tRead tWrite : Nat)
    (id : String) (client : Client) : ResolveResult :=
  match (r.cache.getS tRead id).1 with
  | some inner =>
    { result := outcomeToResult inner
      state := { r with cache := (r.cache.getS tRead id).2 }
      trace := [.lockAcquire, .cacheRead, .lockRelease] }
  | none =>
    match CachingVanityUrlResolver.find client id with
    | (.error err, ftrace) =>
      { result := .error err
        state := { r with cache := (r.cache.getS tRead id).2 }
        trace := [.lockAcquire, .cacheRead, .lockRelease] ++ ftrace }
    | (.ok resolved, ftrace) =>
      { result := outcomeToResult resolved
        state := { r with cache := ((r.cache.getS tRead id).2).set tWrite id resolved }
        trace := [.lockAcquire, .cacheRead, .lockRelease] ++ ftrace
                   ++ [.lockAcquire, .cacheWrite, .lockRelease] }

/-- Recognizer for network events in a trace. -/
def isNetworkCall : Event → Bool
  | .networkCall _ => true
  | _ => false

/-- Number of endpoint invocations recorded in a trace. -/
def networkCalls (trace : List Event) : Nat := (trace.filter isNetworkCall).length

/-- Walks a trace with the current lock depth and checks that the depth is
zero at every network call. -/
def lockFreeAtNetworkAux : Nat → List Event → Bool
  | _, [] => true
  | depth, .lockAcquire :: rest => lockFreeAtNetworkAux (depth + 1) rest
  | depth, .lockRelease :: rest => lockFreeAtNetworkAux (depth - 1) rest
  | depth, .networkCall _ :: rest => depth == 0 && lockFreeAtNetworkAux depth rest
  | depth, _ :: rest => lockFreeAtNetworkAux depth rest

/-- The lock is not held at any network call of the trace. -/
def lockFreeAtNetwork (trace : List Event) : Bool := lockFreeAtNetworkAux 0 trace

/-- Applies a sequence of set operations (instant, key, value) to a cache,
in order. Every reachable cache state is of this form over Cache.new,
since get mutates nothing. -/
def applyOpsFrom {K V : Type} [DecidableEq K] (c : Cache K V) : List (Nat × K × V) → Cache K V
  | [] => c
  | (t, k, v) :: rest => applyOpsFrom (c.set t k v) rest

/-- Cache state after a sequence of set operations on a fresh cache. -/
def applyOps {K V : Type} [DecidableEq K] (ops : List (Nat × K × V)) : Cache K V :=
  applyOpsFrom (Cache.new K V) ops

/-- Instant and value of the last set operation for a key in an operation
sequence, when there is one. -/
def lastSet {K V : Type} [DecidableEq K] : List (Nat × K × V) → K → Option (Nat × V)
  | [], _ => none
  | (t, k, v) :: rest, key =>
    match lastSet rest key with
    | some res => some res
    | none => if k = key then some (t, v) else none

/-! Helper lemmas about the cache. -/

theorem lookupItem_insertItem_self {K V : Type} [DecidableEq K]
    (l : List (K × CacheItem V)) (key : K) (it : CacheItem V) :
    lookupItem (insertItem l key it) key = some it := by
  induction l with
  | nil => simp [insertItem, lookupItem]
  | cons hd tl ih =>
    obtain ⟨k2, v2⟩ := hd
    by_cases h : k2 = key
    · simp [insertItem, h, lookupItem]
    · simp [insertItem, h, lookupItem, ih]

theorem lookupItem_insertItem_ne {K V : Type} [DecidableEq K]
    (l : List (K × CacheItem V)) (key key2 : K) (it : CacheItem V) (hne : key ≠ key2) :
    lookupItem (insertItem l key it) key2 = lookupItem l key2 := by
  induction l with
  | nil => simp [insertItem, lookupItem, hne]
  | cons hd tl ih =>
    obtain ⟨k2, v2⟩ := hd
    by_cases h : k2 = key
    · subst h
      simp [insertItem, lookupItem, hne]
    · simp [insertItem, h, lookupItem, ih]

theorem Cache.getS_snd {K V : Type} [DecidableEq K] (c : Cache K V) (now : Nat) (key : K) :
    (c.getS now key).2 = c := by
  unfold Cache.getS
  rcases lookupItem c.inner key with _ | it
  · rfl
  · by_cases h : now < it.expiration <;> simp [h]

theorem Cache.get_set_self {K V : Type} [DecidableEq K] (c : Cache K V) (t0 t : Nat)
    (key : K) (v : V) :
    (c.set t0 key v).get t key = if t < t0 + c.ttl then some v else none := by
  unfold Cache.get Cache.getS Cache.set
  simp only [lookupItem_insertItem_self]
  by_cases h : t < t0 + c.ttl <;> simp [h]

theorem mem_keys_insertItem {K V : Type} [DecidableEq K]
    (l : List (K × CacheItem V)) (key : K) (it : CacheItem V) (x : K)
    (hx : x ∈ (insertItem l key it).map Prod.fst) :
    x = key ∨ x ∈ l.map Prod.fst := by
  induction l with
  | nil => simpa [insertItem] using hx
  | cons hd tl ih =>
    obtain ⟨k2, v2⟩ := hd
    by_cases h : k2 = key
    · subst h
      simpa [insertItem] using hx
    · simp only [insertItem, h, if_false, List.map_cons, List.mem_cons] at hx
      rcases hx with h1 | h2
      · right; simp [h1]
      · rcases ih h2 with h3 | h4
        · left; exact h3
        · right; simp [h4]

theorem keys_nodup_insertItem {K V : Type} [DecidableEq K]
    (l : List (K × CacheItem V)) (key : K) (it : CacheItem V)
    (hl : (l.map Prod.fst).Nodup) :
    ((insertItem l key it).map Prod.fst).Nodup := by
  induction l with
  | nil => simp [insertItem]
  | cons hd tl ih =>
    obtain ⟨k2, v2⟩ := hd
    simp only [List.map_cons, List.nodup_cons] at hl
    by_cases h : k2 = key
    · subst h
      simpa [insertItem, List.nodup_cons] using hl
    · simp only [insertItem, h, if_false, List.map_cons, List.nodup_cons]
      refine ⟨fun hmem => ?_, ih hl.2⟩
      rcases mem_keys_insertItem tl key it k2 hmem with h1 | h2
      · exact h h1
      · exact hl.1 h2

theorem Cache.set_ttl {K V : Type} [DecidableEq K] (c : Cache K V) (t : Nat) (key : K) (v : V) :
    (c.set t key v).ttl = c.ttl := rfl

theorem applyOpsFrom_ttl {K V : Type} [DecidableEq K] (ops : List (Nat × K × V)) (c : Cache K V) :
    (applyOpsFrom c ops).ttl = c.ttl := by
  induction ops generalizing c with
  | nil => rfl
  | cons op rest ih =>
    obtain ⟨t, k, v⟩ := op
    simpa [applyOpsFrom] using ih (c.set t k v)

theorem applyOpsFrom_keys_nodup {K V : Type} [DecidableEq K]
    (ops : List (Nat × K × V)) (c : Cache K V) (hc : (c.inner.map Prod.fst).Nodup) :
    ((applyOpsFrom c ops).inner.map Prod.fst).Nodup := by
  induction ops generalizing c with
  | nil => exact hc
  | cons op rest ih =>
    obtain ⟨t, k, v⟩ := op
    exact ih (c.set t k v) (keys_nodup_insertItem c.inner k _ hc)

theorem lookupItem_applyOpsFrom {K V : Type} [DecidableEq K]
    (ops : List (Nat × K × V)) (c : Cache K V) (key : K) :
    lookupItem (applyOpsFrom c ops).inner key =
      match lastSet ops key with
      | some (t, v) => some { expiration := t + c.ttl, value := v }
      | none => lookupItem c.inner key := by
  induction ops generalizing c with
  | nil => simp [applyOpsFrom, lastSet]
  | cons op rest ih =>
    obtain ⟨t, k, v⟩ := op
    have step := ih (c.set t k v)
    rcases hlast : lastSet rest key with _ | tv
    · simp only [applyOpsFrom, lastSet, hlast]
      rw [step, hlast]
      by_cases h : k = key
      · subst h
        simp [Cache.set, Cache.set_ttl, lookupItem_insertItem_self]
      · simp [Cache.set, h, lookupItem_insertItem_ne c.inner k key _ h]
    · obtain ⟨t2, v2⟩ := tv
      simp only [applyOpsFrom, lastSet, hlast]
      rw [step, hlast]
      rfl

/-- C3: TTL correctness of the cache: immediately after set(k, v) at
instant t0, and at every instant strictly before t0 + ttl, get(k) returns
some v; at every instant at or past t0 + ttl, including the exact
expiration instant, get(k) returns none. -/
theorem C3_ttl_correctness {K V : Type} [DecidableEq K] (c : Cache K V) (t0 t : Nat)
    (k : K) (v : V) :
    (t < t0 + c.ttl → (c.set t0 k v).get t k = some v) ∧
    (t0 + c.ttl ≤ t → (c.set t0 k v).get t k = none) := by
  constructor
  · intro h
    simp [Cache.get_set_self, h]
  · intro h
    simp [Cache.get_set_self, Nat.not_lt.mpr h]

/-- Witness for C3 at the concrete scenario of the spec: 15-minute ttl,
set at instant 0, reads at instants 899 and 900. -/
theorem C3_ttl_correctness_witness :
    ((Cache.new String String).set 0 "76561" "76561").get 899 "76561" = some "76561" ∧
    ((Cache.new String String).set 0 "76561" "76561").get 900 "76561" = none :=
  ⟨(C3_ttl_correctness (Cache.new String String) 0 899 "76561" "76561").1 (by decide),
   (C3_ttl_correctness (Cache.new String String) 0 900 "76561" "76561").2 (by decide)⟩

/-- C7: overwrite semantics: after set(k, v1) at t1 and then set(k, v2) at
t2, the entry for k holds v2 with expiration t2 + ttl, independent of t1,
and get(k) at any instant returns some v2 before t2 + ttl and none from
t2 + ttl on, never v1. -/
theorem C7_overwrite_semantics {K V : Type} [DecidableEq K] (c : Cache K V)
    (t1 t2 t : Nat) (k : K) (v1 v2 : V) :
    lookupItem ((c.set t1 k v1).set t2 k v2).inner k
      = some { expiration := t2 + c.ttl, value := v2 } ∧
    ((c.set t1 k v1).set t2 k v2).get t k = if t < t2 + c.ttl then some v2 else none := by
  refine ⟨lookupItem_insertItem_self _ k _, ?_⟩
  exact Cache.get_set_self (c.set t1 k v1) t2 t k v2

/-- C6: cache structural invariant: in every cache state reached by a
sequence of set operations from Cache.new (get mutates nothing, see C8),
the ttl is the construction-time 900 seconds, the map holds at most one
entry per key, and every present entry's expiration equals the instant of
the most recent insertion of its key plus the ttl. -/
theorem C6_cache_structural_invariant {K V : Type} [DecidableEq K]
    (ops : List (Nat × K × V)) (k : K) (it : CacheItem V)
    (h : lookupItem (applyOps ops).inner k = some it) :
    (applyOps ops).ttl = 15 * 60 ∧
    ((applyOps ops).inner.map Prod.fst).Nodup ∧
    ∃ t v, lastSet ops k = some (t, v) ∧ it.expiration = t + 15 * 60 ∧ it.value = v := by
  unfold applyOps at h ⊢
  refine ⟨applyOpsFrom_ttl ops (Cache.new K V),
    applyOpsFrom_keys_nodup ops (Cache.new K V) (by simp [Cache.new]), ?_⟩
  have hchar := lookupItem_applyOpsFrom ops (Cache.new K V) k
  rw [h] at hchar
  rcases hlast : lastSet ops k with _ | tv
  · rw [hlast] at hchar
    simp [Cache.new, lookupItem] at hchar
  · obtain ⟨t, v⟩ := tv
    rw [hlast] at hchar
    have h2 : it = { expiration := t + (Cache.new K V).ttl, value := v } := by
      injection hchar
    subst h2
    exact ⟨t, v, rfl, rfl, rfl⟩

/-- Witness for C6: two insertions for the same key; the surviving entry
carries the second instant plus 900. -/
theorem C6_cache_structural_invariant_witness :
    (applyOps ([(5, 1, 10), (9, 1, 20)] : List (Nat × Nat × Nat))).ttl = 15 * 60 ∧
    ((applyOps ([(5, 1, 10), (9, 1, 20)] : List (Nat × Nat × Nat))).inner.map Prod.fst).Nodup ∧
    ∃ t v, lastSet ([(5, 1, 10), (9, 1, 20)] : List (Nat × Nat × Nat)) 1 = some (t, v) ∧
      (⟨909, 20⟩ : CacheItem Nat).expiration = t + 15 * 60 ∧
      (⟨909, 20⟩ : CacheItem Nat).value = v :=
  C6_cache_structural_invariant ([(5, 1, 10), (9, 1, 20)] : List (Nat × Nat × Nat)) 1
    ⟨909, 20⟩ (by decide)

/-! Helper lemmas about resolve and find. -/

theorem resolve_hit (r : CachingVanityUrlResolver) (tR tW : Nat) (id : String)
    (client : Client) (o : Option String) (h : (r.cache.getS tR id).1 = some o) :
    r.resolve tR tW id client =
      { result := outcomeToResult o
        state := r
        trace := [.lockAcquire, .cacheRead, .lockRelease] } := by
  unfold CachingVanityUrlResolver.resolve
  simp only [h, Cache.getS_snd]

theorem resolve_miss_error (r : CachingVanityUrlResolver) (tR tW : Nat) (id : String)
    (client : Client) (err : SasError) (ftrace : List Event)
    (h : (r.cache.getS tR id).1 = none)
    (hf : CachingVanityUrlResolver.find client id = (.error err, ftrace)) :
    r.resolve tR tW id client =
      { result := .error err
        state := r
        trace := [.lockAcquire, .cacheRead, .lockRelease] ++ ftrace } := by
  unfold CachingVanityUrlResolver.resolve
  simp only [h, hf, Cache.getS_snd]

theorem resolve_miss_ok (r : CachingVanityUrlResolver) (tR tW : Nat) (id : String)
    (client : Client) (resolved : Option String) (ftrace : List Event)
    (h : (r.cache.getS tR id).1 = none)
    (hf : CachingVanityUrlResolver.find client id = (.ok resolved, ftrace)) :
    r.resolve tR tW id client =
      { result := outcomeToResult resolved
        state := { r with cache := r.cache.set tW id resolved }
        trace := [.lockAcquire, .cacheRead, .lockRelease] ++ ftrace
                   ++ [.lockAcquire, .cacheWrite, .lockRelease] } := by
  unfold CachingVanityUrlResolver.resolve
  simp only [h, hf, Cache.getS_snd]

theorem find_sendError (client : Client) (id : String)
    (h : client (.ResolveVanityUrl id) = .sendError) :
    CachingVanityUrlResolver.find client id
      = (.error .ReqwestError, [.networkCall (.ResolveVanityUrl id)]) := by
  unfold CachingVanityUrlResolver.find
  rw [h]

theorem find_badStatus (client : Client) (id : String) (st : Nat) (body : Option Json)
    (h : client (.ResolveVanityUrl id) = .response st body)
    (hs : isSuccess st = false) :
    CachingVanityUrlResolver.find client id
      = (.error (.ApiError (apiErrorMsg st)), [.networkCall (.ResolveVanityUrl id)]) := by
  unfold CachingVanityUrlResolver.find
  rw [h]
  simp [hs]

theorem find_bodyFail (client : Client) (id : String) (st : Nat)
    (h : client (.ResolveVanityUrl id) = .response st none)
    (hs : isSuccess st = true) :
    CachingVanityUrlResolver.find client id
      = (.error .ReqwestError, [.networkCall (.ResolveVanityUrl id)]) := by
  unfold CachingVanityUrlResolver.find
  rw [h]
  simp [hs]

theorem find_parseFail (client : Client) (id : String) (st : Nat) (res : Json)
    (h : client (.ResolveVanityUrl id) = .response st (some res))
    (hs : isSuccess st = true)
    (hd : deserializeGetVanityUrlResponse (res.index "response") = .error ()) :
    CachingVanityUrlResolver.find client id
      = (.error .SerdeError, [.networkCall (.ResolveVanityUrl id)]) := by
  unfold CachingVanityUrlResolver.find
  rw [h]
  simp [hs, hd]

theorem find_okShape (client : Client) (id : String) (st : Nat) (res : Json)
    (sid : String) (n : Int)
    (h : client (.ResolveVanityUrl id) = .response st (some res))
    (hs : isSuccess st = true)
    (hd : deserializeGetVanityUrlResponse (res.index "response") = .ok (.Ok sid n)) :
    CachingVanityUrlResolver.find client id
      = (.ok (some sid), [.networkCall (.ResolveVanityUrl id)]) := by
  unfold CachingVanityUrlResolver.find
  rw [h]
  simp [hs, hd]

theorem find_fallback (client : Client) (id : String) (st : Nat) (res : Json)
    (m : String) (n : Int) (st2 : Nat) (res2 : Json) (players : List Player)
    (h : client (.ResolveVanityUrl id) = .response st (some res))
    (hs : isSuccess st = true)
    (hd : deserializeGetVanityUrlResponse (res.index "response") = .ok (.NotFound m n))
    (h2 : client (.GetPlayerSummaries id) = .response st2 (some res2))
    (hs2 : isSuccess st2 = true)
    (hp : parsePlayers ((res2.index "response").index "players") = .ok players) :
    CachingVanityUrlResolver.find client id
      = (.ok (players.head?.map (fun p => p.steamid)),
         [.networkCall (.ResolveVanityUrl id), .networkCall (.GetPlayerSummaries id)]) := by
  unfold CachingVanityUrlResolver.find
  rw [h]
  simp only [hs, if_true, hd, h2, hs2, hp]
  cases hh : players.head? <;> simp [hh]

theorem find_trace_shape (client : Client) (id : String) :
    (CachingVanityUrlResolver.find client id).2 = [Event.networkCall (.ResolveVanityUrl id)] ∨
    (CachingVanityUrlResolver.find client id).2
      = [Event.networkCall (.ResolveVanityUrl id), Event.networkCall (.GetPlayerSummaries id)] := by
  unfold CachingVanityUrlResolver.find
  repeat' split
  all_goals simp

theorem find_trace_cases (client : Client) (id : String)
    (fres : Except SasError (Option String)) (ftrace : List Event)
    (hf : CachingVanityUrlResolver.find client id = (fres, ftrace)) :
    ftrace = [Event.networkCall (.ResolveVanityUrl id)] ∨
    ftrace = [Event.networkCall (.ResolveVanityUrl id),
              Event.networkCall (.GetPlayerSummaries id)] := by
  have h := find_trace_shape client id
  rw [hf] at h
  exact h

theorem networkCalls_append (a b : List Event) :
    networkCalls (a ++ b) = networkCalls a + networkCalls b := by
  simp [networkCalls, List.filter_append]

theorem resolve_miss_networkCalls (r : CachingVanityUrlResolver) (tR tW : Nat)
    (id : String) (client : Client) (hmiss : (r.cache.getS tR id).1 = none) :
    1 ≤ networkCalls (r.resolve tR tW id client).trace := by
  rcases hft : CachingVanityUrlResolver.find client id with ⟨fres, ftrace⟩
  have htr := find_trace_cases client id fres ftrace hft
  have hcalls : 1 ≤ networkCalls ftrace := by
    rcases htr with h2 | h2 <;> subst h2 <;> simp [networkCalls, isNetworkCall]
  rcases fres with err | resolved
  · rw [resolve_miss_error r tR tW id client err ftrace hmiss hft]
    simpa [networkCalls_append, networkCalls, isNetworkCall] using hcalls
  · rw [resolve_miss_ok r tR tW id client resolved ftrace hmiss hft]
    simpa [networkCalls_append, networkCalls, isNetworkCall] using hcalls

/-- C8: reads leave the cache unchanged: get hands back exactly the cache
state it was given (an expired entry is not purged and an unexpired
entry's expiration is not extended), and a resolve that hits the cache
leaves the whole resolver state unchanged and performs no set and no
network call. -/
theorem C8_reads_leave_cache_unchanged {K V : Type} [DecidableEq K] (c : Cache K V)
    (now : Nat) (k : K) (r : CachingVanityUrlResolver) (tR tW : Nat) (id : String)
    (client : Client) (o : Option String)
    (hhit : r.cache.get tR id = some o) :
    (c.getS now k).2 = c ∧
    (r.resolve tR tW id client).state = r ∧
    networkCalls (r.resolve tR tW id client).trace = 0 := by
  rw [resolve_hit r tR tW id client o hhit]
  exact ⟨Cache.getS_snd c now k, rfl, rfl⟩

/-- A cache holding an unexpired entry, used to exercise the hit path. -/
def cacheWithHit : Cache String (Option String) :=
  { inner := [("x", { expiration := 900, value := some "y" })], ttl := 900 }

/-- A resolver whose shared cache is cacheWithHit. -/
def resolverWithHit : CachingVanityUrlResolver := { cache := cacheWithHit, api_key := "" }

/-- A transport on which every send fails. -/
def deadClient : Client := fun _ => .sendError

/-- Witness for C8: a hit on an unexpired entry over a dead transport. -/
theorem C8_reads_leave_cache_unchanged_witness :
    (cacheWithHit.getS 0 "x").2 = cacheWithHit ∧
    (resolverWithHit.resolve 0 0 "x" deadClient).state = resolverWithHit ∧
    networkCalls (resolverWithHit.resolve 0 0 "x" deadClient).trace = 0 :=
  C8_reads_leave_cache_unchanged cacheWithHit 0 "x" resolverWithHit 0 0 "x" deadClient
    (some "y") (by decide)

/-- C9: the cache lock is never held across network I/O: in every resolve
execution, the trace holds the lock depth at zero whenever a network call
happens; the lock is released before find starts and retaken only after
both remote calls are over, solely around the cache write. -/
theorem C9_lock_not_held_across_network (r : CachingVanityUrlResolver) (tR tW : Nat)
    (id : String) (client : Client) :
    lockFreeAtNetwork (r.resolve tR tW id client).trace = true := by
  rcases hhit : (r.cache.getS tR id).1 with _ | o
  · rcases hft : CachingVanityUrlResolver.find client id with ⟨fres, ftrace⟩
    have htr := find_trace_cases client id fres ftrace hft
    rcases fres with err | resolved
    · rw [resolve_miss_error r tR tW id client err ftrace hhit hft]
      rcases htr with h2 | h2 <;> subst h2 <;>
        simp [lockFreeAtNetwork, lockFreeAtNetworkAux]
    · rw [resolve_miss_ok r tR tW id client resolved ftrace hhit hft]
      rcases htr with h2 | h2 <;> subst h2 <;>
        simp [lockFreeAtNetwork, lockFreeAtNetworkAux]
  · rw [resolve_hit r tR tW id client o hhit]
    simp [lockFreeAtNetwork, lockFreeAtNetworkAux]

/-- C1: negative caching: a cached unexpired None entry makes resolve fail
at once with the fixed not-found error and zero remote calls; and after a
miss-path resolve whose lookup returns None, the cache maps the raw id to
None, so any later resolve of the same id within the TTL window (measured
from the write instant) fails that way with zero remote calls, whatever
transport it is handed. -/
theorem C1_negative_caching (r : CachingVanityUrlResolver) (tR tW tR2 tW2 : Nat)
    (id : String) (client client2 : Client) :
    (r.cache.get tR id = some none →
      (r.resolve tR tW id client).result = .error notFoundError ∧
      networkCalls (r.resolve tR tW id client).trace = 0) ∧
    (r.cache.get tR id = none →
      (CachingVanityUrlResolver.find client id).1 = .ok none →
      tR2 < tW + r.cache.ttl →
      (r.resolve tR tW id client).state.cache.get tR2 id = some none ∧
      ((r.resolve tR tW id client).state.resolve tR2 tW2 id client2).result
        = .error notFoundError ∧
      networkCalls ((r.resolve tR tW id client).state.resolve tR2 tW2 id client2).trace
        = 0) := by
  constructor
  · intro hhit
    rw [resolve_hit r tR tW id client none hhit]
    exact ⟨rfl, rfl⟩
  · intro hmiss hfind httl
    rcases hft : CachingVanityUrlResolver.find client id with ⟨fres, ftrace⟩
    have hres : fres = .ok none := by rw [hft] at hfind; exact hfind
    subst hres
    rw [resolve_miss_ok r tR tW id client none ftrace hmiss hft]
    have hget : (r.cache.set tW id none).get tR2 id = some none := by
      rw [Cache.get_set_self]
      simp [httl]
    refine ⟨hget, ?_, ?_⟩ <;>
      rw [resolve_hit { r with cache := r.cache.set tW id none } tR2 tW2 id client2 none hget] <;>
      rfl

/-- A resolver whose cache holds an unexpired negative entry for bob. -/
def resolverNeg : CachingVanityUrlResolver :=
  { cache := { inner := [("bob", { expiration := 900, value := none })], ttl := 900 }
    api_key := "" }

/-- A resolver over a fresh cache. -/
def resolverEmpty : CachingVanityUrlResolver :=
  { cache := Cache.new String (Option String), api_key := "" }

/-- Transport whose vanity endpoint answers the not-found shape and whose
player lookup answers an empty player list. -/
def clientNotFound : Client := fun e =>
  match e with
  | .ResolveVanityUrl _ =>
    .response 200 (some (.obj [("response",
      .obj [("message", .str "No match"), ("success", .num 42)])]))
  | .GetPlayerSummaries _ =>
    .response 200 (some (.obj [("response", .obj [("players", .arr [])])]))

/-- Witness for C1: a hit on the negative entry over a dead transport, and
a fresh miss over the not-found transport followed by a read within the
TTL window over a dead transport. -/
theorem C1_negative_caching_witness :
    ((resolverNeg.resolve 0 0 "bob" deadClient).result = .error notFoundError ∧
     networkCalls (resolverNeg.resolve 0 0 "bob" deadClient).trace = 0) ∧
    ((resolverEmpty.resolve 0 0 "bob" clientNotFound).state.cache.get 10 "bob"
        = some none ∧
     ((resolverEmpty.resolve 0 0 "bob" clientNotFound).state.resolve 10 10 "bob"
        deadClient).result = .error notFoundError ∧
     networkCalls ((resolverEmpty.resolve 0 0 "bob" clientNotFound).state.resolve 10 10
        "bob" deadClient).trace = 0) :=
  ⟨(C1_negative_caching resolverNeg 0 0 10 10 "bob" deadClient deadClient).1 (by decide),
   (C1_negative_caching resolverEmpty 0 0 10 10 "bob" clientNotFound deadClient).2
     (by decide) rfl (by decide)⟩

/-- C2: failure atomicity: when find ends in any error, resolve propagates
exactly that error, performs no cache write (the resolver state is left
untouched), the failed attempt did reach the network, and a subsequent
resolve of the same identifier over any transport attempts the remote
lookup again; moreover a transport failure on the vanity call surfaces as
ReqwestError, a non-success status as ApiError with the status in its
message, and an unparsable response value as SerdeError. -/
theorem C2_failure_not_cached (r : CachingVanityUrlResolver) (tR tW tW2 : Nat) (id : String)
    (client client3 : Client) (err : SasError)
    (hmiss : r.cache.get tR id = none)
    (herr : (CachingVanityUrlResolver.find client id).1 = .error err) :
    (r.resolve tR tW id client).result = .error err ∧
    (r.resolve tR tW id client).state = r ∧
    1 ≤ networkCalls (r.resolve tR tW id client).trace ∧
    1 ≤ networkCalls ((r.resolve tR tW id client).state.resolve tR tW2 id client3).trace ∧
    (client (.ResolveVanityUrl id) = .sendError → err = .ReqwestError) ∧
    (∀ (st : Nat) (body2 : Option Json),
      client (.ResolveVanityUrl id) = .response st body2 → isSuccess st = false →
      err = .ApiError (apiErrorMsg st)) ∧
    (∀ (st : Nat) (res : Json),
      client (.ResolveVanityUrl id) = .response st (some res) → isSuccess st = true →
      deserializeGetVanityUrlResponse (res.index "response") = .error () →
      err = .SerdeError) := by
  rcases hft : CachingVanityUrlResolver.find client id with ⟨fres, ftrace⟩
  have hres : fres = .error err := by rw [hft] at herr; exact herr
  subst hres
  have hre := resolve_miss_error r tR tW id client err ftrace hmiss hft
  rw [hre]
  have htr := find_trace_cases client id _ ftrace hft
  refine ⟨rfl, rfl, ?_, ?_, ?_, ?_, ?_⟩
  · rcases htr with h2 | h2 <;> subst h2 <;>
      simp [networkCalls, networkCalls_append, isNetworkCall]
  · exact resolve_miss_networkCalls r tR tW2 id client3 hmiss
  · intro hsend
    have h2 := (find_sendError client id hsend).symm.trans hft
    have h3 := congrArg Prod.fst h2
    simpa using h3.symm
  · intro st body2 hresp hbad
    have h2 := (find_badStatus client id st body2 hresp hbad).symm.trans hft
    have h3 := congrArg Prod.fst h2
    simpa using h3.symm
  · intro st res hresp hgood hparse
    have h2 := (find_parseFail client id st res hresp hgood hparse).symm.trans hft
    have h3 := congrArg Prod.fst h2
    simpa using h3.symm

/-- Witness for C2: a fresh resolver over a dead transport; the transport
error propagates, nothing is cached, and the classification conjunct for
a send failure applies. -/
theorem C2_failure_not_cached_witness :
    (resolverEmpty.resolve 0 0 "bob" deadClient).result = .error .ReqwestError ∧
    (resolverEmpty.resolve 0 0 "bob" deadClient).state = resolverEmpty ∧
    1 ≤ networkCalls (resolverEmpty.resolve 0 0 "bob" deadClient).trace ∧
    1 ≤ networkCalls
        ((resolverEmpty.resolve 0 0 "bob" deadClient).state.resolve 0 5 "bob"
          deadClient).trace ∧
    SasError.ReqwestError = SasError.ReqwestError := by
  have h := C2_failure_not_cached resolverEmpty 0 0 5 "bob" deadClient deadClient
    .ReqwestError (by decide) rfl
  exact ⟨h.1, h.2.1, h.2.2.1, h.2.2.2.1, h.2.2.2.2.1 rfl⟩

/-- C4: fallback path of find: when the vanity endpoint answers a success
status with the not-found shape, find calls the player lookup endpoint
with the same identifier and returns the first entry's steamid of the
parsed list (resolve then returns it), or None when the list is empty
(resolve then fails with the fixed 404 not-found error); and when a vanity
payload has the Ok shape, find returns its steamid after that single
call. -/
theorem C4_fallback_path (id : String) (client : Client) (st1 : Nat) (res1 : Json)
    (m : String) (sc : Int) (st2 : Nat) (res2 : Json) (players : List Player)
    (c2 : Client) (stA : Nat) (resA : Json) (sid : String) (n : Int)
    (r : CachingVanityUrlResolver) (tR tW : Nat)
    (h1 : client (.ResolveVanityUrl id) = .response st1 (some res1))
    (hs1 : isSuccess st1 = true)
    (hd1 : deserializeGetVanityUrlResponse (res1.index "response") = .ok (.NotFound m sc))
    (h2 : client (.GetPlayerSummaries id) = .response st2 (some res2))
    (hs2 : isSuccess st2 = true)
    (hp : parsePlayers ((res2.index "response").index "players") = .ok players)
    (hA : c2 (.ResolveVanityUrl id) = .response stA (some resA))
    (hsA : isSuccess stA = true)
    (hdA : deserializeGetVanityUrlResponse (resA.index "response") = .ok (.Ok sid n))
    (hmiss : r.cache.get tR id = none) :
    CachingVanityUrlResolver.find client id
      = (.ok (players.head?.map (fun p => p.steamid)),
         [.networkCall (.ResolveVanityUrl id), .networkCall (.GetPlayerSummaries id)]) ∧
    (r.resolve tR tW id client).result
      = (match players.head? with
         | some p => .ok p.steamid
         | none => .error notFoundError) ∧
    CachingVanityUrlResolver.find c2 id
      = (.ok (some sid), [.networkCall (.ResolveVanityUrl id)]) := by
  have hfind := find_fallback client id st1 res1 m sc st2 res2 players h1 hs1 hd1 h2 hs2 hp
  refine ⟨hfind, ?_, find_okShape c2 id stA resA sid n hA hsA hdA⟩
  rw [resolve_miss_ok r tR tW id client (players.head?.map (fun p => p.steamid)) _ hmiss hfind]
  cases players.head? <;> rfl

/-- Transport whose vanity endpoint answers the not-found shape and whose
player lookup answers one matching profile. -/
def clientFallback : Client := fun e =>
  match e with
  | .ResolveVanityUrl _ =>
    .response 200 (some (.obj [("response",
      .obj [("message", .str "No match"), ("success", .num 42)])]))
  | .GetPlayerSummaries _ =>
    .response 200 (some (.obj [("response", .obj [("players", .arr
      [.obj [("steamid", .str "76561198000000000"), ("profileurl", .str "u"),
             ("personaname", .str "p"), ("avatarfull", .str "a")]])])]))

/-- Transport whose vanity endpoint answers the Ok shape with steamid 123
and success 1; the player lookup is never reached and is dead. -/
def clientVanityOk : Client := fun e =>
  match e with
  | .ResolveVanityUrl _ =>
    .response 200 (some (.obj [("response",
      .obj [("steamid", .str "123"), ("success", .num 1)])]))
  | .GetPlayerSummaries _ => .sendError

/-- Witness for C4: the one-profile fallback scenario, the empty-list
fallback scenario, and the direct Ok-shape scenario. -/
theorem C4_fallback_path_witness :
    CachingVanityUrlResolver.find clientFallback "bob"
      = (.ok (some "76561198000000000"),
         [.networkCall (.ResolveVanityUrl "bob"),
          .networkCall (.GetPlayerSummaries "bob")]) ∧
    (resolverEmpty.resolve 0 0 "bob" clientFallback).result = .ok "76561198000000000" ∧
    (resolverEmpty.resolve 0 0 "bob" clientNotFound).result = .error notFoundError ∧
    CachingVanityUrlResolver.find clientVanityOk "bob"
      = (.ok (some "123"), [.networkCall (.ResolveVanityUrl "bob")]) := by
  have hOne := C4_fallback_path "bob" clientFallback 200
    (.obj [("response", .obj [("message", .str "No match"), ("success", .num 42)])])
    "No match" 42 200
    (.obj [("response", .obj [("players", .arr
      [.obj [("steamid", .str "76561198000000000"), ("profileurl", .str "u"),
             ("personaname", .str "p"), ("avatarfull", .str "a")]])])])
    [{ steamid := "76561198000000000", profileurl := "u", personaname := "p",
       avatarfull := "a" }]
    clientVanityOk 200
    (.obj [("response", .obj [("steamid", .str "123"), ("success", .num 1)])])
    "123" 1 resolverEmpty 0 0
    rfl (by decide) (by decide) rfl (by decide) (by decide) rfl (by decide) (by decide)
    (by decide)
  have hNone := C4_fallback_path "bob" clientNotFound 200
    (.obj [("response", .obj [("message", .str "No match"), ("success", .num 42)])])
    "No match" 42 200
    (.obj [("response", .obj [("players", .arr [])])])
    []
    clientVanityOk 200
    (.obj [("response", .obj [("steamid", .str "123"), ("success", .num 1)])])
    "123" 1 resolverEmpty 0 0
    rfl (by decide) (by decide) rfl (by decide) (by decide) rfl (by decide) (by decide)
    (by decide)
  exact ⟨hOne.1, hOne.2.1, hNone.2.1, hOne.2.2⟩

/-- C5 counterexample: in the claim's own scenario (the vanity endpoint
answers steamid 123, success 1) two resolve calls within the TTL window
both yield Ok 123, yet the total number of remote endpoint invocations is
one, not an exact pair (two): the fallback endpoint is never reached, so
the claim's count of exactly one pair of remote calls in total is false. -/
theorem C5_counterexample :
    (resolverEmpty.resolve 0 0 "vanityname" clientVanityOk).result = .ok "123" ∧
    ((resolverEmpty.resolve 0 0 "vanityname" clientVanityOk).state.resolve 1 1
      "vanityname" clientVanityOk).result = .ok "123" ∧
    networkCalls (resolverEmpty.resolve 0 0 "vanityname" clientVanityOk).trace
      + networkCalls ((resolverEmpty.resolve 0 0 "vanityname" clientVanityOk).state.resolve
          1 1 "vanityname" clientVanityOk).trace = 1 ∧
    ¬ (networkCalls (resolverEmpty.resolve 0 0 "vanityname" clientVanityOk).trace
      + networkCalls ((resolverEmpty.resolve 0 0 "vanityname" clientVanityOk).state.resolve
          1 1 "vanityname" clientVanityOk).trace = 2) := by
  decide

/-- C5 amended: resolving a found identifier twice within the TTL window
issues only the remote calls of the single initial lookup, which is one
endpoint invocation when the vanity endpoint resolves directly and two
when the fallback is consulted; the second resolve returns the cached
canonical identifier with zero additional endpoint invocations, over any
transport. -/
theorem C5_positive_caching (r : CachingVanityUrlResolver) (tR tW tR2 tW2 : Nat)
    (id cid : String) (client client2 : Client)
    (hmiss : r.cache.get tR id = none)
    (hfind : (CachingVanityUrlResolver.find client id).1 = .ok (some cid))
    (httl : tR2 < tW + r.cache.ttl) :
    (r.resolve tR tW id client).result = .ok cid ∧
    networkCalls (r.resolve tR tW id client).trace
      = networkCalls (CachingVanityUrlResolver.find client id).2 ∧
    1 ≤ networkCalls (CachingVanityUrlResolver.find client id).2 ∧
    networkCalls (CachingVanityUrlResolver.find client id).2 ≤ 2 ∧
    ((r.resolve tR tW id client).state.resolve tR2 tW2 id client2).result = .ok cid ∧
    networkCalls ((r.resolve tR tW id client).state.resolve tR2 tW2 id client2).trace
      = 0 := by
  rcases hft : CachingVanityUrlResolver.find client id with ⟨fres, ftrace⟩
  have hres : fres = .ok (some cid) := by rw [hft] at hfind; exact hfind
  subst hres
  rw [resolve_miss_ok r tR tW id client (some cid) ftrace hmiss hft]
  have htr := find_trace_cases client id _ ftrace hft
  have hget : (r.cache.set tW id (some cid)).get tR2 id = some (some cid) := by
    rw [Cache.get_set_self]
    simp [httl]
  have hsecond := resolve_hit { r with cache := r.cache.set tW id (some cid) } tR2 tW2 id
    client2 (some cid) hget
  rw [hsecond]
  refine ⟨rfl, ?_, ?_, ?_, rfl, rfl⟩
  · rcases htr with h2 | h2 <;> subst h2 <;>
      simp [networkCalls, networkCalls_append, isNetworkCall]
  · rcases htr with h2 | h2 <;> subst h2 <;> simp [networkCalls, isNetworkCall]
  · rcases htr with h2 | h2 <;> subst h2 <;> simp [networkCalls, isNetworkCall]

/-- Witness for C5: the steamid-123 scenario for the first call and a dead
transport for the second, which still answers from the cache. -/
theorem C5_positive_caching_witness :
    (resolverEmpty.resolve 0 0 "vanityname" clientVanityOk).result = .ok "123" ∧
    networkCalls (resolverEmpty.resolve 0 0 "vanityname" clientVanityOk).trace
      = networkCalls (CachingVanityUrlResolver.find clientVanityOk "vanityname").2 ∧
    1 ≤ networkCalls (CachingVanityUrlResolver.find clientVanityOk "vanityname").2 ∧
    networkCalls (CachingVanityUrlResolver.find clientVanityOk "vanityname").2 ≤ 2 ∧
    ((resolverEmpty.resolve 0 0 "vanityname" clientVanityOk).state.resolve 10 10
      "vanityname" deadClient).result = .ok "123" ∧
    networkCalls ((resolverEmpty.resolve 0 0 "vanityname" clientVanityOk).state.resolve
      10 10 "vanityname" deadClient).trace = 0 :=
  C5_positive_caching resolverEmpty 0 0 10 10 "vanityname" "123" clientVanityOk deadClient
    (by decide) rfl (by decide)

/-- C10: the success field of the vanity response is never inspected: every
payload object carrying a string steamid field and an integer success
field, whatever that integer is (zero included), deserializes to the Ok
variant, and find then treats the identifier as resolved after the single
vanity call. -/
theorem C10_success_field_not_inspected (fields : List (String × Json)) (s : String)
    (n : Int) (client : Client) (id : String) (st : Nat) (res : Json)
    (hs : lookupField fields "steamid" = .str s)
    (hn : lookupField fields "success" = .num n)
    (hrange : fitsI32 n = true)
    (hresp : client (.ResolveVanityUrl id) = .response st (some res))
    (hst : isSuccess st = true)
    (hbody : res.index "response" = .obj fields) :
    deserializeGetVanityUrlResponse (.obj fields) = .ok (.Ok s n) ∧
    CachingVanityUrlResolver.find client id
      = (.ok (some s), [.networkCall (.ResolveVanityUrl id)]) := by
  have hd : deserializeGetVanityUrlResponse (.obj fields) = .ok (.Ok s n) := by
    unfold deserializeGetVanityUrlResponse
    simp only [hs, hn, asString, asI32, hrange, if_true]
  exact ⟨hd, find_okShape client id st res s n hresp hst (by rw [hbody]; exact hd)⟩

/-- Transport whose vanity endpoint answers a payload with steamid 77 and
success 0. -/
def clientSuccessZero : Client := fun e =>
  match e with
  | .ResolveVanityUrl _ =>
    .response 200 (some (.obj [("response",
      .obj [("steamid", .str "77"), ("success", .num 0)])]))
  | .GetPlayerSummaries _ => .sendError

/-- Witness for C10: a payload with success equal to 0 is still treated as
resolved. -/
theorem C10_success_field_not_inspected_witness :
    deserializeGetVanityUrlResponse
        (.obj [("steamid", .str "77"), ("success", .num 0)]) = .ok (.Ok "77" 0) ∧
    CachingVanityUrlResolver.find clientSuccessZero "bob"
      = (.ok (some "77"), [.networkCall (.ResolveVanityUrl "bob")]) :=
  C10_success_field_not_inspected [("steamid", .str "77"), ("success", .num 0)] "77" 0
    clientSuccessZero "bob" 200
    (.obj [("response", .obj [("steamid", .str "77"), ("success", .num 0)])])
    rfl rfl (by decide) rfl (by decide) rfl
